import Mathlib

/-!
Verification of the corolaria-ui API surface.

Shallow embedding of the Python API-layer handlers:
`format_date` and the article endpoints (`api_article_endpoints.py`),
`format_context_path` and `semantic_search` (`api_search_endpoints.py`),
`login` (`auth_endpoints.py`), and the authenticated `chat` endpoint with
its token-balance / conversation-ownership policy (`chat_endpoints.py`).

External collaborators (SQLite repositories, the Neo4j adapter, the
embedding provider and the chat orchestrator) are modelled as oracle
parameters: the handlers under verification receive their results as
values (`Option` / `Except`) exactly where the Python code calls them.

Python string operations are embedded for the ASCII range (Lean's
`Char.toUpper`/`Char.toLower` are ASCII-only; all concrete inputs used in
witnesses and counterexamples are ASCII, where the embedding agrees with
CPython).
-/

namespace Corolaria

/-! ### Python string primitives (ASCII scope) -/

/-- Python slice `s[a:b]` for `0 ≤ a ≤ b`: characters `a … b-1`, clamped to
the string's length.  CPython string slicing never raises for any bounds. -/
def pySlice (s : String) (a b : Nat) : String :=
  ⟨(s.data.drop a).take (b - a)⟩

/-- Python `str.upper()` (ASCII). -/
def pyUpper (s : String) : String :=
  ⟨s.data.map Char.toUpper⟩

/-- Python `str.capitalize()` (ASCII): first character uppercased, the rest
lowercased; the empty string maps to itself. -/
def pyCapitalize (s : String) : String :=
  match s.data with
  | [] => ""
  | c :: cs => ⟨Char.toUpper c :: cs.map Char.toLower⟩

/-- Python `str.isupper()` (ASCII): at least one cased character, and every
cased character is uppercase. -/
def pyIsUpper (s : String) : Bool :=
  s.data.any Char.isAlpha && s.data.all (fun c => !c.isAlpha || c.isUpper)

/-- Auxiliary fold for Python `str.title()` (ASCII): uppercase each cased
character that follows a non-cased one, lowercase the others.  The Boolean
argument records whether the previous character was cased. -/
def pyTitleAux : List Char → Bool → List Char
  | [], _ => []
  | c :: cs, prevAlpha =>
    if c.isAlpha then
      (if prevAlpha then c.toLower else c.toUpper) :: pyTitleAux cs true
    else
      c :: pyTitleAux cs false

/-- Python `str.title()` (ASCII). -/
def pyTitle (s : String) : String :=
  ⟨pyTitleAux s.data false⟩

/-! ### `format_date`

From `api_article_endpoints.py` lines 23-42 (the copy in
`api_search_endpoints.py` lines 71-90 is textually the same function).
The `try` body only slices an 8-character string; CPython slicing is total,
so the fallible step is embedded as an `Except` that is `.ok` by the
semantics of slicing (`ValueError`/`IndexError` would be `.error`). -/

/-- Body of the `try` block of `format_date`: slice out year, month, day and
join with hyphens.  Slicing never raises, hence always `.ok`. -/
def format_date_try (s : String) : Except String String :=
  Except.ok (pySlice s 0 4 ++ "-" ++ pySlice s 4 6 ++ "-" ++ pySlice s 6 8)

/-- `format_date(date_str)`: `None` and falsy/non-8-length strings pass
through unchanged; otherwise the `try` body runs, its `except` clause
returning the input unchanged. -/
def format_date (d : Option String) : Option String :=
  match d with
  | none => none
  | some s =>
    if s = "" || s.length != 8 then some s
    else
      match format_date_try s with
      | .ok r => some r
      | .error _ => some s

/-! ### HTTP error bodies

All handlers raise `HTTPException(status_code=…, detail={"error": …,
"message": …, "details"?: {"exception": …}})`.  Embedded as a record; the
optional `details` dict carries only the stringified exception. -/

/-- An `HTTPException` as raised by the handlers: status code plus the
`detail` dict's machine tag, human message and optional exception text. -/
structure HTTPError where
  status : Nat
  error : String
  message : String
  details : Option String
deriving DecidableEq, Repr

/-- The 404 body used both by `chat` (non-owner conversation) and by
`get_conversation` / `delete_conversation` / `clear_conversation`
(absent or non-owned conversation): `ConversationNotFound`,
`"Conversation '<id>' not found"`. -/
def conversationNotFound (conversation_id : String) : HTTPError :=
  { status := 404
    error := "ConversationNotFound"
    message := "Conversation '" ++ conversation_id ++ "' not found"
    details := none }

/-- The 404 body of the article endpoints: `ArticleNotFound`,
`"Article with node_id '<id>' not found"`. -/
def articleNotFound (node_id : Int) : HTTPError :=
  { status := 404
    error := "ArticleNotFound"
    message := "Article with node_id '" ++ toString node_id ++ "' not found"
    details := none }

/-! ### `format_context_path` (`api_search_endpoints.py` lines 27-68) -/

/-- One entry of a raw `context_path` from the database: a dict read with
`item.get("type", "")` and `item.get("name", "")`, so both keys may be
absent. -/
structure CtxItem where
  ty : Option String
  name : Option String
deriving DecidableEq, Repr

/-- `format_context_path(context_path)`: drop entries whose upper-cased type
is ROOT or CONTENT, reverse to leaf-to-root order, `capitalize()` the type,
`title()` names that satisfy `isupper()` and have length > 1, join as
`"Type Name"` with `", "`. -/
def format_context_path (context_path : List CtxItem) : String :=
  if context_path = [] then ""
  else
    let filtered := context_path.filter fun item =>
      !(pyUpper (item.ty.getD "") == "ROOT" || pyUpper (item.ty.getD "") == "CONTENT")
    if filtered = [] then ""
    else
      let reversed_path := filtered.reverse
      let formatted_items := reversed_path.map fun item =>
        let item_type := pyCapitalize (item.ty.getD "")
        let item_name0 := item.name.getD ""
        let item_name :=
          if pyIsUpper item_name0 && item_name0.length > 1 then pyTitle item_name0
          else item_name0
        item_type ++ " " ++ item_name
      String.intercalate ", " formatted_items

/-- Modelled from the claim's words, for comparison with the source
function: drop every entry whose type is (exactly) `"ROOT"` or
`"CONTENT"`, reverse the remaining entries, title-case any name that is
all-uppercase, and join the entries as `"Type Name"` separated by `", "`
(no transformation of the type is mentioned). -/
def format_context_path_claim (context_path : List CtxItem) : String :=
  let filtered := context_path.filter fun item =>
    !(item.ty.getD "" == "ROOT" || item.ty.getD "" == "CONTENT")
  let formatted_items := filtered.reverse.map fun item =>
    let item_name0 := item.name.getD ""
    let item_name := if pyIsUpper item_name0 then pyTitle item_name0 else item_name0
    item.ty.getD "" ++ " " ++ item_name
  String.intercalate ", " formatted_items

/-! ### `semantic_search` (`api_search_endpoints.py` lines 94-251)

The embedding provider and the vector search are external collaborators:
the handler receives their results as `Except` values (error = the
stringified exception the corresponding `try` block catches).  String-typed
record fields already present in the raw hit stand for values whose `str()`
coercion is the identity; `article_id` keeps its dynamic type because the
handler branches on it with `isinstance(article_id, int)`. -/

/-- Dynamic type of `result.get("article_id")`: an int, something of another
type (carrying Python's type name, e.g. `"str"`), or absent (`None`,
type name `"NoneType"`). -/
inductive PyVal where
  | vInt (n : Int)
  | vOther (typeName : String)
deriving DecidableEq, Repr

/-- Python type name of a `PyVal`, as `type(x).__name__` renders it. -/
def PyVal.pyTypeName : PyVal → String
  | .vInt _ => "int"
  | .vOther t => t

/-- A raw hit dict as returned by `adapter.vector_search`.  Optional fields
are keys that may be missing (`result.get(…)` yields `None`). -/
structure RawHit where
  article_id : PyVal
  article_number : String
  article_text : Option String
  article_path : Option String
  score : Option Int
  normativa_title : String
  normativa_id : String
  fecha_publicacion : Option String
  fecha_vigencia : Option String
  fecha_caducidad : Option String
  previous_version_id : Option Int
  next_version_id : Option Int
  context_path : List CtxItem
  embedding : Option (List Int)
deriving DecidableEq, Repr

/-- The `metadata` dict attached to each `ArticleResult`. -/
structure MetaData where
  has_embedding : Bool
  query : String
  context_path_text : String
deriving DecidableEq, Repr

/-- The `ArticleResult` response schema (scores kept as integers: no claim
concerns their numeric value, only that they pass through). -/
structure ArticleResult where
  article_id : String
  article_number : String
  article_text : String
  article_path : String
  score : Int
  normativa_title : String
  normativa_id : String
  fecha_publicacion : Option String
  fecha_vigencia : Option String
  fecha_caducidad : Option String
  previous_version_id : Option String
  next_version_id : Option String
  context_path : List CtxItem
  metadata : MetaData
deriving DecidableEq, Repr

/-- The `SemanticSearchResponse` schema (wall-clock `execution_time_ms` is
not embeddable and is omitted). -/
structure SemanticSearchResponse where
  query : String
  results : List ArticleResult
  total_results : Nat
  strategy_used : String
deriving DecidableEq, Repr

/-- Python truthiness guard `format_date(x) if x else None` applied to the
three date fields (an empty string is falsy). -/
def coerceDate : Option String → Option String
  | none => none
  | some s => if s = "" then none else format_date (some s)

/-- Python truthiness guard `str(x) if x else None` applied to the integer
version-id fields (`0` is falsy). -/
def coerceVersionId : Option Int → Option String
  | none => none
  | some n => if n = 0 then none else some (toString n)

/-- Body of the per-hit transformation of `semantic_search`, after the
`isinstance` guard has bound the integer id `n`. -/
def articleResultOfHit (query : String) (hit : RawHit) (n : Int) : ArticleResult :=
  let article_text := hit.article_text.getD ""
  let article_path := hit.article_path.getD ""
  let formatted_context :=
    if article_path ≠ "" then article_path else format_context_path hit.context_path
  { article_id := toString n
    article_number := hit.article_number
    article_text := article_text
    article_path := article_path
    score := hit.score.getD 0
    normativa_title := hit.normativa_title
    normativa_id := hit.normativa_id
    fecha_publicacion := coerceDate hit.fecha_publicacion
    fecha_vigencia := coerceDate hit.fecha_vigencia
    fecha_caducidad := coerceDate hit.fecha_caducidad
    previous_version_id := coerceVersionId hit.previous_version_id
    next_version_id := coerceVersionId hit.next_version_id
    context_path := hit.context_path
    metadata :=
      { has_embedding := hit.embedding.isSome
        query := query
        context_path_text := formatted_context } }

/-- The result-transformation loop of `semantic_search`: hits are processed
in order; the first hit whose `article_id` is not an `int` raises
`TypeError(f"article_id must be int, got {…}")`, which the error value
carries. -/
def processResults (query : String) : List RawHit → Except String (List ArticleResult)
  | [] => .ok []
  | hit :: rest =>
    match hit.article_id with
    | .vInt n => (processResults query rest).map (articleResultOfHit query hit n :: ·)
    | x => .error ("article_id must be int, got " ++ x.pyTypeName)

/-- `semantic_search(request)` after request validation: embed the query,
vector-search, transform the hits.  An embedding failure maps to 500
`EmbeddingGenerationError`, a search failure to 500 `DatabaseError`; the
`TypeError` of the transformation loop escapes to the handler's catch-all
`except Exception` and maps to 500 `InternalServerError`. -/
def semantic_search (query : String) (embedRes : Except String (List Int))
    (searchRes : List Int → Except String (List RawHit)) :
    Except HTTPError SemanticSearchResponse :=
  match embedRes with
  | .error e =>
    .error { status := 500, error := "EmbeddingGenerationError"
             message := "Failed to generate query embedding", details := some e }
  | .ok emb =>
    match searchRes emb with
    | .error e =>
      .error { status := 500, error := "DatabaseError"
               message := "Failed to search vector database", details := some e }
    | .ok raw_results =>
      match processResults query raw_results with
      | .error msg =>
        .error { status := 500, error := "InternalServerError"
                 message := "An unexpected error occurred", details := some msg }
      | .ok article_results =>
        .ok { query := query
              results := article_results
              total_results := article_results.length
              strategy_used := "Vector Search" }

/-! ### `get_article_versions` (`api_article_endpoints.py` lines 106-173)

The Neo4j adapter is external; the handler receives the version list it
returned.  `adapter.get_article_versions` yields dicts read with `v.get`,
so every key may be absent. -/

/-- A raw version dict from `adapter.get_article_versions`. -/
structure RawVersion where
  article_id : Option Int
  article_number : Option String
  validity_start : Option String
  validity_end : Option String
  article_text : Option String
  normativa_title : Option String
deriving DecidableEq, Repr

/-- The `ArticleVersionInfo` response schema. -/
structure ArticleVersionInfo where
  node_id : String
  article_number : String
  fecha_vigencia : Option String
  fecha_caducidad : Option String
  is_current_version : Bool
  article_text : String
deriving DecidableEq, Repr

/-- The `ArticleVersionsResponse` schema. -/
structure ArticleVersionsResponse where
  article_number : String
  normativa_title : String
  versions : List ArticleVersionInfo
  total_versions : Nat
deriving DecidableEq, Repr

/-- `str(v.get("article_id", ""))`: the default is the empty string, an
integer id renders in decimal. -/
def strOfOptInt : Option Int → String
  | none => ""
  | some n => toString n

/-- The per-version transformation of `get_article_versions`:
`is_current_version` is `v.get("validity_end") is None`, the date fields
run through `format_date`. -/
def versionInfoOf (v : RawVersion) : ArticleVersionInfo :=
  { node_id := strOfOptInt v.article_id
    article_number := v.article_number.getD ""
    fecha_vigencia := format_date v.validity_start
    fecha_caducidad := format_date v.validity_end
    is_current_version := v.validity_end = none
    article_text := v.article_text.getD "" }

/-- `get_article_versions(node_id)`: an empty (falsy) version list raises
404 `ArticleNotFound`; otherwise every version is mapped through
`versionInfoOf`, and `normativa_title` / `article_number` are taken from
the first returned version. -/
def get_article_versions (node_id : Int) (versions : List RawVersion) :
    Except HTTPError ArticleVersionsResponse :=
  match versions with
  | [] => .error (articleNotFound node_id)
  | v0 :: _ =>
    let version_infos := versions.map versionInfoOf
    .ok { article_number := v0.article_number.getD ""
          normativa_title := v0.normativa_title.getD ""
          versions := version_infos
          total_versions := version_infos.length }

/-! ### `login` (`auth_endpoints.py` lines 29-108)

The SQLite user repository and the JWT helpers are external: lookup,
password verification, token creation and the expiry constant are oracle
parameters. -/

/-- A user row as the repository returns it. -/
structure User where
  id : Nat
  username : String
  is_active : Bool
  available_tokens : Int
  created_at : String
deriving DecidableEq, Repr

/-- The external user repository: `get_by_username` and `verify_password`
(bcrypt check against the stored hash, opaque here). -/
structure UserRepo where
  get_by_username : String → Option User
  verify_password : User → String → Bool

/-- The `TokenResponse` schema. -/
structure TokenResponse where
  access_token : String
  token_type : String
  expires_in : Nat
  user_id : Nat
  username : String
  available_tokens : Int
deriving DecidableEq, Repr

/-- The 401 body shared by the no-such-user and wrong-password branches of
`login`. -/
def invalidCredentials : HTTPError :=
  { status := 401, error := "Unauthorized"
    message := "Invalid username or password", details := none }

/-- The 401 body of the inactive-account branch of `login`. -/
def accountDisabled : HTTPError :=
  { status := 401, error := "Unauthorized"
    message := "Account is disabled", details := none }

/-- `login(request)`: lookup by username, verify password, check
`is_active`, then issue a token (`create_access_token` and
`get_token_expiry_seconds` are the oracles `mkToken` / `expiry`). -/
def login (repo : UserRepo) (mkToken : Nat → String → String) (expiry : Nat)
    (username password : String) : Except HTTPError TokenResponse :=
  match repo.get_by_username username with
  | none => .error invalidCredentials
  | some user =>
    if !repo.verify_password user password then .error invalidCredentials
    else if !user.is_active then .error accountDisabled
    else
      .ok { access_token := mkToken user.id user.username
            token_type := "bearer"
            expires_in := expiry
            user_id := user.id
            username := user.username
            available_tokens := user.available_tokens }

/-! ### Authenticated `chat` (`chat_endpoints.py` lines 112-230)

The SQLite repositories are external; the state visible to the handler is
the pair of oracles `balance : Nat → Int` (`get_token_balance`) and
`convOwner : String → Option Nat` (`get_conversation_user_id`, `none` when
no such conversation row exists).  The chat orchestrator
(`chat_service.achat`) is an oracle delivering either a successful result
or the stringified exception the handler's `except Exception` catches.
`consume_tokens(user_id, 1)` is modelled as the pointwise decrement of the
balance oracle.  The handler's result records the response or error, the
post-call balance, and whether the orchestrator was invoked. -/

/-- Decoded JWT payload injected into every protected handler. -/
structure TokenPayload where
  user_id : Nat
  username : String
deriving DecidableEq, Repr

/-- The `ChatRequest` schema after validation (`message` non-empty,
`top_k ∈ [1,20]` enforced by pydantic, not re-checked by the handler). -/
structure ChatRequest where
  message : String
  conversation_id : Option String
  top_k : Nat
deriving DecidableEq, Repr

/-- A citation as produced by the chat orchestrator (scores kept as
integers: no claim concerns their numeric value). -/
structure Citation where
  index : Nat
  article_id : String
  article_number : String
  normativa_title : String
  article_path : String
  score : Int
deriving DecidableEq, Repr

/-- The `CitationResponse` schema. -/
structure CitationResponse where
  index : Nat
  article_id : String
  article_number : String
  normativa_title : String
  article_path : String
  score : Int
deriving DecidableEq, Repr

/-- A successful orchestrator result (`chat_service.achat`). -/
structure ChatResult where
  response : String
  conversation_id : String
  citations : List Citation
  execution_time_ms : Nat
deriving DecidableEq, Repr

/-- The `ChatResponse` schema. -/
structure ChatResponse where
  response : String
  conversation_id : String
  citations : List CitationResponse
  execution_time_ms : Nat
deriving DecidableEq, Repr

/-- What the `chat` handler sends back: a 200 response or a raised
`HTTPException`. -/
inductive ChatOutcome where
  | ok (resp : ChatResponse)
  | err (e : HTTPError)
deriving DecidableEq, Repr

/-- The repository state the `chat` handler reads. -/
structure ChatEnv where
  balance : Nat → Int
  convOwner : String → Option Nat

/-- Result of one `chat` call: outcome, balance oracle after the call, and
whether `chat_service.achat` was invoked. -/
structure ChatStep where
  outcome : ChatOutcome
  newBalance : Nat → Int
  orchCalled : Bool

/-- The 402 body of the balance check. -/
def insufficientTokens : HTTPError :=
  { status := 402, error := "InsufficientTokens"
    message := "You have no remaining API tokens. Please contact an administrator."
    details := none }

/-- The 500 body of the orchestrator-failure branch, carrying `str(e)`. -/
def chatProcessingError (e : String) : HTTPError :=
  { status := 500, error := "ChatProcessingError"
    message := "Failed to process chat message", details := some e }

/-- The ownership guard of `chat`: Python `if owner and owner !=
token.user_id` — it fires only when a conversation id was supplied, the
owner lookup returned a truthy value (a nonzero id), and that owner is not
the caller. -/
def ownGuard (env : ChatEnv) (token : TokenPayload) (request : ChatRequest) : Bool :=
  match request.conversation_id with
  | none => false
  | some cid =>
    match env.convOwner cid with
    | none => false
    | some owner => owner != 0 && owner != token.user_id

/-- `CitationResponse(index=c.index, …)` built from each orchestrator
citation. -/
def citationResponseOf (c : Citation) : CitationResponse :=
  { index := c.index
    article_id := c.article_id
    article_number := c.article_number
    normativa_title := c.normativa_title
    article_path := c.article_path
    score := c.score }

/-- The authenticated `chat` handler: balance check (402), ownership guard
(404), orchestrator call; on success `consume_tokens(token.user_id, 1)` and
response shaping, on failure 500 `ChatProcessingError` with the balance
untouched. -/
def chat (env : ChatEnv) (token : TokenPayload) (request : ChatRequest)
    (orch : Except String ChatResult) : ChatStep :=
  if env.balance token.user_id ≤ 0 then
    { outcome := .err insufficientTokens, newBalance := env.balance, orchCalled := false }
  else if ownGuard env token request then
    { outcome := .err (conversationNotFound (request.conversation_id.getD ""))
      newBalance := env.balance, orchCalled := false }
  else
    match orch with
    | .error e =>
      { outcome := .err (chatProcessingError e), newBalance := env.balance
        orchCalled := true }
    | .ok result =>
      { outcome := .ok
          { response := result.response
            conversation_id := result.conversation_id
            citations := result.citations.map citationResponseOf
            execution_time_ms := result.execution_time_ms }
        newBalance := fun u =>
          if u = token.user_id then env.balance token.user_id - 1 else env.balance u
        orchCalled := true }

/-! ### `get_conversation` (`chat_endpoints.py` lines 233-307)

Only the not-found path matters to the claims: the repository's
`get_conversation(conversation_id, user_id)` is owner-scoped and returns
`None` both for an absent conversation and for one owned by another user;
the handler then raises the same 404 body `chat` uses for non-owners.  The
stored conversation is embedded only as far as the response needs. -/

/-- A stored message row. -/
structure StoredMessage where
  role : String
  content : String
  citations : List Citation
  timestamp : String
deriving DecidableEq, Repr

/-- A stored conversation row (timestamps kept as their ISO strings). -/
structure ConversationRec where
  id : String
  messages : List StoredMessage
  created_at : String
  updated_at : String
deriving DecidableEq, Repr

/-- The `ConversationMessageResponse` schema. -/
structure ConversationMessageResponse where
  role : String
  content : String
  citations : List CitationResponse
  timestamp : String
deriving DecidableEq, Repr

/-- The `ConversationResponse` schema. -/
structure ConversationResponse where
  id : String
  messages : List ConversationMessageResponse
  created_at : String
  updated_at : String
deriving DecidableEq, Repr

/-- `get_conversation(conversation_id)`: the owner-scoped lookup either
yields the conversation (shaped into the response) or `None`, which raises
404 `ConversationNotFound`. -/
def get_conversation (lookup : String → Nat → Option ConversationRec)
    (token : TokenPayload) (conversation_id : String) :
    Except HTTPError ConversationResponse :=
  match lookup conversation_id token.user_id with
  | none => .error (conversationNotFound conversation_id)
  | some conversation =>
    .ok { id := conversation.id
          messages := conversation.messages.map fun msg =>
            { role := msg.role
              content := msg.content
              citations := msg.citations.map citationResponseOf
              timestamp := msg.timestamp }
          created_at := conversation.created_at
          updated_at := conversation.updated_at }

/-! ## Claims -/

/-- C6: for every 8-character numeric string `YYYYMMDD`, `format_date`
returns `YYYY-MM-DD` (hyphens inserted after the 4th and 6th characters);
for every string whose length is not 8, and for empty/absent input, it
returns the input unchanged.  (The empty string has length 0 ≠ 8 and is
covered by the second conjunct; absent input by the third.) -/
theorem c6_format_date (s : String) :
    (s.length = 8 → (∀ c ∈ s.data, c.isDigit) →
      format_date (some s) =
        some (String.mk (s.data.take 4) ++ "-" ++ String.mk ((s.data.drop 4).take 2)
          ++ "-" ++ String.mk ((s.data.drop 6).take 2))) ∧
    (s.length ≠ 8 → format_date (some s) = some s) ∧
    format_date none = none := by
  refine ⟨?_, ?_, rfl⟩
  · intro h8 _
    have hne : ¬ s = "" := by
      intro h
      subst h
      exact absurd h8 (by decide)
    have hcond : (s = "" || s.length != 8) = false := by
      simp [hne, h8]
    simp [format_date, hcond, format_date_try, pySlice]
  · intro h
    have hcond : (s = "" || s.length != 8) = true := by simp [h]
    simp [format_date, hcond]

/-- Witness for C6 at the concrete inputs `"19871123"` (8 numeric
characters) and `"1987"` (length 4). -/
theorem c6_format_date_witness :
    ("19871123" : String).length = 8 ∧
    (∀ c ∈ ("19871123" : String).data, c.isDigit) ∧
    format_date (some "19871123") =
      some (String.mk (("19871123" : String).data.take 4) ++ "-"
        ++ String.mk ((("19871123" : String).data.drop 4).take 2) ++ "-"
        ++ String.mk ((("19871123" : String).data.drop 6).take 2)) ∧
    format_date (some "19871123") = some "1987-11-23" ∧
    ("1987" : String).length ≠ 8 ∧
    format_date (some "1987") = some "1987" := by
  refine ⟨by decide, by decide, (c6_format_date "19871123").1 (by decide) (by decide),
    by decide, by decide, (c6_format_date "1987").2.1 (by decide)⟩

/-- C9: `format_date` reformats every 8-character string, numeric or not,
into `s[0:4]-s[4:6]-s[6:8]`: the length-8 branch never passes the input
through unchanged (the output has length 10), and its
`ValueError`/`IndexError` fallback is unreachable because slicing an
8-character string raises neither (`format_date_try` is always `.ok`). -/
theorem c9_format_date_len8 (s : String) (h8 : s.length = 8) :
    format_date (some s) =
      some (pySlice s 0 4 ++ "-" ++ pySlice s 4 6 ++ "-" ++ pySlice s 6 8) ∧
    format_date (some s) ≠ some s ∧
    format_date_try s =
      Except.ok (pySlice s 0 4 ++ "-" ++ pySlice s 4 6 ++ "-" ++ pySlice s 6 8) := by
  have hd : s.data.length = 8 := h8
  have hne : ¬ s = "" := by
    intro h
    subst h
    exact absurd h8 (by decide)
  have hcond : (s = "" || s.length != 8) = false := by
    simp [hne, h8]
  have heq : format_date (some s) =
      some (pySlice s 0 4 ++ "-" ++ pySlice s 4 6 ++ "-" ++ pySlice s 6 8) := by
    simp [format_date, hcond, format_date_try]
  refine ⟨heq, ?_, rfl⟩
  have hslice : ∀ a b : Nat, (pySlice s a b).length = min (b - a) (8 - a) := by
    intro a b
    show ((s.data.drop a).take (b - a)).length = _
    simp [List.length_take, List.length_drop, hd]
  have hdash : ("-" : String).length = 1 := rfl
  have hlen : (pySlice s 0 4 ++ "-" ++ pySlice s 4 6 ++ "-" ++ pySlice s 6 8).length = 10 := by
    simp [String.length_append, hslice, hdash]
  intro hcontra
  rw [heq] at hcontra
  have : (pySlice s 0 4 ++ "-" ++ pySlice s 4 6 ++ "-" ++ pySlice s 6 8) = s :=
    Option.some.inj hcontra
  rw [this] at hlen
  omega

/-- Witness for C9 at the non-numeric 8-character input `"abcdefgh"`, which
becomes `"abcd-ef-gh"` rather than passing through. -/
theorem c9_format_date_len8_witness :
    ("abcdefgh" : String).length = 8 ∧
    format_date (some "abcdefgh") =
      some (pySlice "abcdefgh" 0 4 ++ "-" ++ pySlice "abcdefgh" 4 6 ++ "-"
        ++ pySlice "abcdefgh" 6 8) ∧
    format_date (some "abcdefgh") ≠ some "abcdefgh" ∧
    format_date_try "abcdefgh" =
      Except.ok (pySlice "abcdefgh" 0 4 ++ "-" ++ pySlice "abcdefgh" 4 6 ++ "-"
        ++ pySlice "abcdefgh" 6 8) ∧
    format_date (some "abcdefgh") = some "abcd-ef-gh" := by
  obtain ⟨h1, h2, h3⟩ := c9_format_date_len8 "abcdefgh" (by decide)
  exact ⟨by decide, h1, h2, h3, by decide⟩

/-- Modelled from the amended claim: like the claim's description but with
the three details the source adds — the drop of ROOT/CONTENT entries is
case-insensitive (the type is upper-cased before comparison), each entry's
type is `capitalize()`d (first character upper-cased, the rest lowered),
and title-casing applies only to all-uppercase names of length greater
than 1.  Stated without the source's early returns. -/
def format_context_path_amended (context_path : List CtxItem) : String :=
  let kept := context_path.filter fun item =>
    !(pyUpper (item.ty.getD "") == "ROOT" || pyUpper (item.ty.getD "") == "CONTENT")
  String.intercalate ", " (kept.reverse.map fun item =>
    pyCapitalize (item.ty.getD "") ++ " " ++
      (if pyIsUpper (item.name.getD "") && (item.name.getD "").length > 1
       then pyTitle (item.name.getD "") else item.name.getD ""))

/-- C7 (counterexample): on the single-entry path
`[{type: "CAPITULO", name: "SEGUNDO"}]` the source yields
`"Capitulo Segundo"` — the type is `capitalize()`d — while the claim's
description, which never transforms the type, yields
`"CAPITULO Segundo"`. -/
theorem c7_format_context_path_counterexample :
    format_context_path [{ ty := some "CAPITULO", name := some "SEGUNDO" }]
      = "Capitulo Segundo" ∧
    format_context_path_claim [{ ty := some "CAPITULO", name := some "SEGUNDO" }]
      = "CAPITULO Segundo" ∧
    format_context_path [{ ty := some "CAPITULO", name := some "SEGUNDO" }]
      ≠ format_context_path_claim [{ ty := some "CAPITULO", name := some "SEGUNDO" }] := by
  refine ⟨by decide, by decide, by decide⟩

/-- C7 (amended): for every context path, `format_context_path` drops every
entry whose upper-cased type is ROOT or CONTENT, reverses the remaining
entries to leaf-to-root order, capitalizes each type, title-cases any
all-uppercase name of length greater than 1, and joins the entries as
`"Type Name"` separated by `", "`; an empty list, or a list whose entries
are all dropped, yields the empty string (the joined form of no
entries). -/
theorem c7_format_context_path_amended (context_path : List CtxItem) :
    format_context_path context_path = format_context_path_amended context_path := by
  simp only [format_context_path, format_context_path_amended]
  by_cases h1 : context_path = []
  · subst h1
    rfl
  · rw [if_neg h1]
    by_cases h2 : context_path.filter (fun item =>
        !(pyUpper (item.ty.getD "") == "ROOT" || pyUpper (item.ty.getD "") == "CONTENT")) = []
    · rw [if_pos h2, h2]
      rfl
    · rw [if_neg h2]

/-- When every hit carries an integer `article_id`, the transformation loop
succeeds and relates input hits to output results pointwise in order. -/
theorem processResults_ok (q : String) (hits : List RawHit)
    (hall : ∀ h ∈ hits, ∃ n, h.article_id = PyVal.vInt n) :
    ∃ rs, processResults q hits = Except.ok rs ∧
      List.Forall₂ (fun (h : RawHit) (r : ArticleResult) =>
        ∀ n, h.article_id = PyVal.vInt n → r = articleResultOfHit q h n) hits rs := by
  induction hits with
  | nil => exact ⟨[], rfl, List.Forall₂.nil⟩
  | cons h t ih =>
    obtain ⟨n, hn⟩ := hall h (List.mem_cons_self h t)
    obtain ⟨rs, hrs, hf⟩ := ih (fun x hx => hall x (List.mem_cons_of_mem h hx))
    refine ⟨articleResultOfHit q h n :: rs, ?_, ?_⟩
    · simp [processResults, hn, hrs, Except.map]
    · refine List.Forall₂.cons (fun m hm => ?_) hf
      rw [hn] at hm
      cases hm
      rfl

/-- When some hit carries a non-integer `article_id`, the transformation
loop raises the `TypeError`. -/
theorem processResults_error (q : String) (hits : List RawHit)
    (hbad : ∃ h ∈ hits, ∀ n, h.article_id ≠ PyVal.vInt n) :
    ∃ msg, processResults q hits = Except.error msg := by
  induction hits with
  | nil =>
    obtain ⟨h, hmem, _⟩ := hbad
    exact absurd hmem (List.not_mem_nil h)
  | cons h t ih =>
    obtain ⟨x, hmem, hx⟩ := hbad
    rcases List.mem_cons.mp hmem with heq | hmem'
    · subst heq
      cases hxa : x.article_id with
      | vInt n => exact absurd hxa (hx n)
      | vOther ty =>
        exact ⟨"article_id must be int, got " ++ ty, by simp [processResults, hxa, PyVal.pyTypeName]⟩
    · cases hha : h.article_id with
      | vInt n =>
        obtain ⟨msg, hmsg⟩ := ih ⟨x, hmem', hx⟩
        exact ⟨msg, by simp [processResults, hha, hmsg, Except.map]⟩
      | vOther ty =>
        exact ⟨"article_id must be int, got " ++ ty, by simp [processResults, hha, PyVal.pyTypeName]⟩

/-- C5: for every raw hit list in which each hit's `article_id` is an
integer, `semantic_search` answers 200 with the hits in retrieval order,
each `article_id` string-coerced, and `total_results` equal to the number
of hits; if any hit's `article_id` is not an integer, the `TypeError`
escapes to the catch-all handler and the response is the 500-class
`InternalServerError`. -/
theorem c5_semantic_search (query : String) (emb : List Int)
    (searchRes : List Int → Except String (List RawHit)) (hits : List RawHit)
    (hs : searchRes emb = Except.ok hits) :
    ((∀ h ∈ hits, ∃ n, h.article_id = PyVal.vInt n) →
      ∃ resp, semantic_search query (Except.ok emb) searchRes = Except.ok resp ∧
        resp.total_results = hits.length ∧
        resp.results.length = hits.length ∧
        List.Forall₂ (fun (h : RawHit) (r : ArticleResult) =>
          ∀ n, h.article_id = PyVal.vInt n →
            r = articleResultOfHit query h n ∧ r.article_id = toString n)
          hits resp.results) ∧
    ((∃ h ∈ hits, ∀ n, h.article_id ≠ PyVal.vInt n) →
      ∃ msg, semantic_search query (Except.ok emb) searchRes = Except.error
        { status := 500, error := "InternalServerError"
          message := "An unexpected error occurred", details := some msg }) := by
  constructor
  · intro hall
    obtain ⟨rs, hrs, hf⟩ := processResults_ok query hits hall
    refine ⟨{ query := query, results := rs, total_results := rs.length
              strategy_used := "Vector Search" }, ?_, ?_, ?_, ?_⟩
    · simp [semantic_search, hs, hrs]
    · simpa using hf.length_eq.symm
    · exact hf.length_eq.symm
    · refine hf.imp (fun {h r} hr n hn => ?_)
      refine ⟨hr n hn, ?_⟩
      rw [hr n hn]
      rfl
  · intro hbad
    obtain ⟨msg, hmsg⟩ := processResults_error query hits hbad
    exact ⟨msg, by simp [semantic_search, hs, hmsg]⟩

/-- Stub retrieval hit for the C5 witnesses: `article_id = 123` (integer),
mirroring the spec's end-to-end example. -/
def stubHitInt : RawHit :=
  { article_id := PyVal.vInt 123
    article_number := "Articulo 20"
    article_text := some "texto"
    article_path := some "Titulo I"
    score := some 1
    normativa_title := "Constitucion"
    normativa_id := "CE"
    fecha_publicacion := some "19781229"
    fecha_vigencia := none
    fecha_caducidad := none
    previous_version_id := none
    next_version_id := none
    context_path := []
    embedding := none }

/-- Stub retrieval hit with a string-typed `article_id`, for the failure
half of the C5 witness. -/
def stubHitStr : RawHit :=
  { stubHitInt with article_id := PyVal.vOther "str" }

/-- Witness for C5: one stub hit with integer `article_id = 123` yields a
200 response (with `results[0].article_id == "123"` and
`total_results == 1` via the `Forall2`), and one stub hit with a
string-typed `article_id` yields the 500 `InternalServerError`. -/
theorem c5_semantic_search_witness :
    ((fun _ => Except.ok [stubHitInt] :
        List Int → Except String (List RawHit)) [1] = Except.ok [stubHitInt]) ∧
    (∀ h ∈ [stubHitInt], ∃ n, h.article_id = PyVal.vInt n) ∧
    (∃ resp, semantic_search "libertad de expresion" (Except.ok [1])
        (fun _ => Except.ok [stubHitInt]) = Except.ok resp ∧
      resp.total_results = [stubHitInt].length ∧
      resp.results.length = [stubHitInt].length ∧
      List.Forall₂ (fun (h : RawHit) (r : ArticleResult) =>
        ∀ n, h.article_id = PyVal.vInt n →
          r = articleResultOfHit "libertad de expresion" h n ∧ r.article_id = toString n)
        [stubHitInt] resp.results) ∧
    (∃ h ∈ [stubHitStr], ∀ n, h.article_id ≠ PyVal.vInt n) ∧
    (∃ msg, semantic_search "libertad de expresion" (Except.ok [1])
        (fun _ => Except.ok [stubHitStr]) = Except.error
        { status := 500, error := "InternalServerError"
          message := "An unexpected error occurred", details := some msg }) := by
  refine ⟨rfl, ?_, ?_, ?_, ?_⟩
  · intro h hm
    rcases List.mem_singleton.mp hm with rfl
    exact ⟨123, rfl⟩
  · exact (c5_semantic_search "libertad de expresion" [1]
      (fun _ => Except.ok [stubHitInt]) [stubHitInt] rfl).1
      (fun h hm => by
        rcases List.mem_singleton.mp hm with rfl
        exact ⟨123, rfl⟩)
  · exact ⟨stubHitStr, List.mem_singleton.mpr rfl, fun n h => by simp [stubHitStr] at h⟩
  · exact (c5_semantic_search "libertad de expresion" [1]
      (fun _ => Except.ok [stubHitStr]) [stubHitStr] rfl).2
      ⟨stubHitStr, List.mem_singleton.mpr rfl, fun n h => by simp [stubHitStr] at h⟩

/-- C8: for every non-empty version list returned by the store,
`get_article_versions` returns one entry per version with
`is_current_version` true exactly when that version's `validity_end` is
absent, `total_versions` equal to the number of versions, and
`normativa_title` / `article_number` taken from the first returned
version; the count of current-tagged entries equals the count of versions
lacking `validity_end` (so two versions of which exactly one lacks it
yield exactly one current entry). -/
theorem c8_get_article_versions (node_id : Int) (versions : List RawVersion)
    (hne : versions ≠ []) :
    ∃ v0 rest, versions = v0 :: rest ∧
      get_article_versions node_id versions = Except.ok
        { article_number := v0.article_number.getD ""
          normativa_title := v0.normativa_title.getD ""
          versions := versions.map versionInfoOf
          total_versions := versions.length } ∧
      (∀ v ∈ versions,
        ((versionInfoOf v).is_current_version = true ↔ v.validity_end = none)) ∧
      (versions.map versionInfoOf).countP (fun r => r.is_current_version) =
        versions.countP (fun v => decide (v.validity_end = none)) := by
  obtain ⟨v0, rest, rfl⟩ : ∃ v0 rest, versions = v0 :: rest := by
    cases versions with
    | nil => exact absurd rfl hne
    | cons a l => exact ⟨a, l, rfl⟩
  refine ⟨v0, rest, rfl, ?_, ?_, ?_⟩
  · simp [get_article_versions]
  · intro v _
    simp [versionInfoOf]
  · rw [List.countP_map]
    rfl

/-- Witness for C8, mirroring the spec's example: the store returns two
versions of article 55, exactly one of which has `validity_end = None`,
and exactly one response entry is tagged current. -/
theorem c8_get_article_versions_witness :
    (([{ article_id := some 55, article_number := some "Articulo 5"
         validity_start := some "19900101", validity_end := some "20000101"
         article_text := some "texto antiguo", normativa_title := some "Ley Organica" },
       { article_id := some 56, article_number := some "Articulo 5"
         validity_start := some "20000101", validity_end := none
         article_text := some "texto vigente", normativa_title := some "Ley Organica" }] :
       List RawVersion) ≠ []) ∧
    (∃ v0 rest,
      ([{ article_id := some 55, article_number := some "Articulo 5"
          validity_start := some "19900101", validity_end := some "20000101"
          article_text := some "texto antiguo", normativa_title := some "Ley Organica" },
        { article_id := some 56, article_number := some "Articulo 5"
          validity_start := some "20000101", validity_end := none
          article_text := some "texto vigente", normativa_title := some "Ley Organica" }] :
        List RawVersion) = v0 :: rest ∧
      get_article_versions 55
        [{ article_id := some 55, article_number := some "Articulo 5"
           validity_start := some "19900101", validity_end := some "20000101"
           article_text := some "texto antiguo", normativa_title := some "Ley Organica" },
         { article_id := some 56, article_number := some "Articulo 5"
           validity_start := some "20000101", validity_end := none
           article_text := some "texto vigente", normativa_title := some "Ley Organica" }]
        = Except.ok
        { article_number := v0.article_number.getD ""
          normativa_title := v0.normativa_title.getD ""
          versions :=
            ([{ article_id := some 55, article_number := some "Articulo 5"
                validity_start := some "19900101", validity_end := some "20000101"
                article_text := some "texto antiguo", normativa_title := some "Ley Organica" },
              { article_id := some 56, article_number := some "Articulo 5"
                validity_start := some "20000101", validity_end := none
                article_text := some "texto vigente", normativa_title := some "Ley Organica" }] :
              List RawVersion).map versionInfoOf
          total_versions := 2 } ∧
      (∀ v ∈ ([{ article_id := some 55, article_number := some "Articulo 5"
                 validity_start := some "19900101", validity_end := some "20000101"
                 article_text := some "texto antiguo", normativa_title := some "Ley Organica" },
               { article_id := some 56, article_number := some "Articulo 5"
                 validity_start := some "20000101", validity_end := none
                 article_text := some "texto vigente", normativa_title := some "Ley Organica" }] :
               List RawVersion),
        ((versionInfoOf v).is_current_version = true ↔ v.validity_end = none)) ∧
      (([{ article_id := some 55, article_number := some "Articulo 5"
           validity_start := some "19900101", validity_end := some "20000101"
           article_text := some "texto antiguo", normativa_title := some "Ley Organica" },
         { article_id := some 56, article_number := some "Articulo 5"
           validity_start := some "20000101", validity_end := none
           article_text := some "texto vigente", normativa_title := some "Ley Organica" }] :
         List RawVersion).map versionInfoOf).countP (fun r => r.is_current_version) =
        ([{ article_id := some 55, article_number := some "Articulo 5"
            validity_start := some "19900101", validity_end := some "20000101"
            article_text := some "texto antiguo", normativa_title := some "Ley Organica" },
          { article_id := some 56, article_number := some "Articulo 5"
            validity_start := some "20000101", validity_end := none
            article_text := some "texto vigente", normativa_title := some "Ley Organica" }] :
          List RawVersion).countP (fun v => decide (v.validity_end = none))) ∧
    (([{ article_id := some 55, article_number := some "Articulo 5"
         validity_start := some "19900101", validity_end := some "20000101"
         article_text := some "texto antiguo", normativa_title := some "Ley Organica" },
       { article_id := some 56, article_number := some "Articulo 5"
         validity_start := some "20000101", validity_end := none
         article_text := some "texto vigente", normativa_title := some "Ley Organica" }] :
       List RawVersion).map versionInfoOf).countP (fun r => r.is_current_version) = 1 := by
  refine ⟨by decide, c8_get_article_versions 55 _ (by decide), by decide⟩

/-- C4: login with a nonexistent username and login with an existing
username but incorrect password both fail with Unauthorized (401) carrying
the identical error body (`invalidCredentials`), and login on an inactive
account also fails with Unauthorized (401) — via `accountDisabled` when
the password is correct, via `invalidCredentials` when it is not (the
password is checked before `is_active`). -/
theorem c4_login_unauthorized (repo : UserRepo) (mkToken : Nat → String → String)
    (expiry : Nat) (username password : String) :
    (repo.get_by_username username = none →
      login repo mkToken expiry username password = Except.error invalidCredentials) ∧
    (∀ user, repo.get_by_username username = some user →
      repo.verify_password user password = false →
      login repo mkToken expiry username password = Except.error invalidCredentials) ∧
    (∀ user, repo.get_by_username username = some user →
      repo.verify_password user password = true → user.is_active = false →
      login repo mkToken expiry username password = Except.error accountDisabled) ∧
    invalidCredentials.status = 401 ∧ accountDisabled.status = 401 := by
  refine ⟨?_, ?_, ?_, rfl, rfl⟩
  · intro h
    simp [login, h]
  · intro user hu hv
    simp [login, hu, hv]
  · intro user hu hv ha
    simp [login, hu, hv, ha]

/-- Witness for C4 against a concrete repository holding an active user
`alice` (password `secret`) and an inactive user `carol` (password
`secret`): unknown username `bob` and wrong password for `alice` produce
the identical 401 body, and `carol` with the correct password gets a
401. -/
theorem c4_login_unauthorized_witness :
    (UserRepo.get_by_username
        ⟨fun u => if u = "alice" then some ⟨1, "alice", true, 5, "2024-01-01"⟩
                  else if u = "carol" then some ⟨2, "carol", false, 5, "2024-01-01"⟩
                  else none,
         fun _ p => p == "secret"⟩ "bob" = none) ∧
    login ⟨fun u => if u = "alice" then some ⟨1, "alice", true, 5, "2024-01-01"⟩
                    else if u = "carol" then some ⟨2, "carol", false, 5, "2024-01-01"⟩
                    else none,
           fun _ p => p == "secret"⟩ (fun _ _ => "jwt") 3600 "bob" "whatever"
      = Except.error invalidCredentials ∧
    login ⟨fun u => if u = "alice" then some ⟨1, "alice", true, 5, "2024-01-01"⟩
                    else if u = "carol" then some ⟨2, "carol", false, 5, "2024-01-01"⟩
                    else none,
           fun _ p => p == "secret"⟩ (fun _ _ => "jwt") 3600 "alice" "wrong"
      = Except.error invalidCredentials ∧
    login ⟨fun u => if u = "alice" then some ⟨1, "alice", true, 5, "2024-01-01"⟩
                    else if u = "carol" then some ⟨2, "carol", false, 5, "2024-01-01"⟩
                    else none,
           fun _ p => p == "secret"⟩ (fun _ _ => "jwt") 3600 "carol" "secret"
      = Except.error accountDisabled := by
  refine ⟨by decide, ?_, ?_, ?_⟩
  · exact (c4_login_unauthorized _ (fun _ _ => "jwt") 3600 "bob" "whatever").1 (by decide)
  · exact (c4_login_unauthorized _ (fun _ _ => "jwt") 3600 "alice" "wrong").2.1
      ⟨1, "alice", true, 5, "2024-01-01"⟩ (by decide) (by decide)
  · exact (c4_login_unauthorized _ (fun _ _ => "jwt") 3600 "carol" "secret").2.2.1
      ⟨2, "carol", false, 5, "2024-01-01"⟩ (by decide) (by decide) (by decide)

/-- C10: login on an existing account with the correct password but
`is_active` false returns Unauthorized (401) with the message
`"Account is disabled"`, which differs from the
`"Invalid username or password"` message returned for unknown-username and
wrong-password failures. -/
theorem c10_login_disabled_distinguishable (repo : UserRepo)
    (mkToken : Nat → String → String) (expiry : Nat) (username password : String)
    (user : User) (hu : repo.get_by_username username = some user)
    (hv : repo.verify_password user password = true) (ha : user.is_active = false) :
    login repo mkToken expiry username password = Except.error accountDisabled ∧
    accountDisabled.status = 401 ∧
    accountDisabled.message = "Account is disabled" ∧
    accountDisabled.message ≠ invalidCredentials.message := by
  refine ⟨?_, rfl, rfl, by decide⟩
  simp [login, hu, hv, ha]

/-- Witness for C10: the inactive user `dave` with the correct password is
told the account is disabled, not that the credentials are invalid. -/
theorem c10_login_disabled_distinguishable_witness :
    (UserRepo.get_by_username
        ⟨fun u => if u = "dave" then some ⟨3, "dave", false, 2, "2024-01-01"⟩ else none,
         fun _ p => p == "pw"⟩ "dave" = some ⟨3, "dave", false, 2, "2024-01-01"⟩) ∧
    login ⟨fun u => if u = "dave" then some ⟨3, "dave", false, 2, "2024-01-01"⟩ else none,
           fun _ p => p == "pw"⟩ (fun _ _ => "jwt") 3600 "dave" "pw"
      = Except.error accountDisabled ∧
    accountDisabled.message ≠ invalidCredentials.message := by
  refine ⟨by decide, ?_, by decide⟩
  exact (c10_login_disabled_distinguishable _ (fun _ _ => "jwt") 3600 "dave" "pw"
    ⟨3, "dave", false, 2, "2024-01-01"⟩ (by decide) (by decide) (by decide)).1

/-- C1: in the authenticated chat endpoint, once the balance and ownership
checks pass, exactly 1 token is deducted from the caller's balance after
(and only after) the orchestrator returns a successful result — no other
user's balance moves — and whenever the orchestrator call fails (the
endpoint answers with the 500-class `ChatProcessingError`) the balance is
unchanged. -/
theorem c1_chat_token_deduction (env : ChatEnv) (token : TokenPayload)
    (request : ChatRequest) (orch : Except String ChatResult)
    (hbal : 0 < env.balance token.user_id)
    (hown : ownGuard env token request = false) :
    (∀ result, orch = Except.ok result →
      (chat env token request orch).newBalance token.user_id =
        env.balance token.user_id - 1 ∧
      (∀ u, u ≠ token.user_id →
        (chat env token request orch).newBalance u = env.balance u) ∧
      (chat env token request orch).outcome = ChatOutcome.ok
        { response := result.response
          conversation_id := result.conversation_id
          citations := result.citations.map citationResponseOf
          execution_time_ms := result.execution_time_ms }) ∧
    (∀ e, orch = Except.error e →
      (chat env token request orch).outcome = ChatOutcome.err (chatProcessingError e) ∧
      (chatProcessingError e).status = 500 ∧
      (chat env token request orch).newBalance = env.balance) := by
  have h1 : ¬ env.balance token.user_id ≤ 0 := not_le.mpr hbal
  constructor
  · rintro result rfl
    refine ⟨by simp [chat, h1, hown], ?_, by simp [chat, h1, hown]⟩
    intro u hu
    simp [chat, h1, hown, hu]
  · rintro e rfl
    exact ⟨by simp [chat, h1, hown], rfl, by simp [chat, h1, hown]⟩

/-- Witness for C1: a caller with balance 5 ends at 4 after a successful
orchestrator call (and the response carries the shaped citation), and
stays at 5 when the orchestrator fails. -/
theorem c1_chat_token_deduction_witness :
    (0 < ChatEnv.balance ⟨fun _ => 5, fun _ => none⟩ 1) ∧
    ownGuard ⟨fun _ => 5, fun _ => none⟩ ⟨1, "alice"⟩ ⟨"hola", none, 5⟩ = false ∧
    (chat ⟨fun _ => 5, fun _ => none⟩ ⟨1, "alice"⟩ ⟨"hola", none, 5⟩
        (Except.ok ⟨"respuesta [1]", "conv-1",
          [⟨1, "123", "Articulo 14", "CE", "Titulo I", 9⟩], 42⟩)).newBalance 1 = 4 ∧
    (chat ⟨fun _ => 5, fun _ => none⟩ ⟨1, "alice"⟩ ⟨"hola", none, 5⟩
        (Except.ok ⟨"respuesta [1]", "conv-1",
          [⟨1, "123", "Articulo 14", "CE", "Titulo I", 9⟩], 42⟩)).outcome
      = ChatOutcome.ok ⟨"respuesta [1]", "conv-1",
          [⟨1, "123", "Articulo 14", "CE", "Titulo I", 9⟩], 42⟩ ∧
    (chat ⟨fun _ => 5, fun _ => none⟩ ⟨1, "alice"⟩ ⟨"hola", none, 5⟩
        (Except.error "LLM timeout")).outcome
      = ChatOutcome.err (chatProcessingError "LLM timeout") ∧
    (chat ⟨fun _ => 5, fun _ => none⟩ ⟨1, "alice"⟩ ⟨"hola", none, 5⟩
        (Except.error "LLM timeout")).newBalance 1 = 5 := by
  have hA := (c1_chat_token_deduction ⟨fun _ => 5, fun _ => none⟩ ⟨1, "alice"⟩
    ⟨"hola", none, 5⟩ (Except.ok ⟨"respuesta [1]", "conv-1",
      [⟨1, "123", "Articulo 14", "CE", "Titulo I", 9⟩], 42⟩) (by decide) rfl).1 _ rfl
  have hB := (c1_chat_token_deduction ⟨fun _ => 5, fun _ => none⟩ ⟨1, "alice"⟩
    ⟨"hola", none, 5⟩ (Except.error "LLM timeout") (by decide) rfl).2 _ rfl
  exact ⟨by decide, rfl, hA.1.trans (by decide), hA.2.2,
    hB.1, (congrFun hB.2.2 1).trans (by decide)⟩

/-- C2: for every authenticated chat request by a caller whose token
balance is ≤ 0, the endpoint responds PaymentRequired (402) and the
orchestrator is never invoked (the handler's result does not even depend
on the orchestrator's behaviour); the balance is untouched. -/
theorem c2_chat_payment_required (env : ChatEnv) (token : TokenPayload)
    (request : ChatRequest) (orch : Except String ChatResult)
    (hbal : env.balance token.user_id ≤ 0) :
    (chat env token request orch).outcome = ChatOutcome.err insufficientTokens ∧
    insufficientTokens.status = 402 ∧
    (chat env token request orch).orchCalled = false ∧
    (chat env token request orch).newBalance = env.balance ∧
    (∀ orch2, chat env token request orch = chat env token request orch2) := by
  refine ⟨by simp [chat, hbal], rfl, by simp [chat, hbal], by simp [chat, hbal], ?_⟩
  intro orch2
  simp [chat, hbal]

/-- Witness for C2: a caller with balance 0 gets the 402 and the
orchestrator flag stays false, whatever the orchestrator would have
answered. -/
theorem c2_chat_payment_required_witness :
    (ChatEnv.balance ⟨fun _ => 0, fun _ => none⟩ 1 ≤ 0) ∧
    (chat ⟨fun _ => 0, fun _ => none⟩ ⟨1, "alice"⟩ ⟨"hola", none, 5⟩
        (Except.ok ⟨"respuesta", "conv-1", [], 7⟩)).outcome
      = ChatOutcome.err insufficientTokens ∧
    (chat ⟨fun _ => 0, fun _ => none⟩ ⟨1, "alice"⟩ ⟨"hola", none, 5⟩
        (Except.ok ⟨"respuesta", "conv-1", [], 7⟩)).orchCalled = false ∧
    (chat ⟨fun _ => 0, fun _ => none⟩ ⟨1, "alice"⟩ ⟨"hola", none, 5⟩
        (Except.ok ⟨"respuesta", "conv-1", [], 7⟩)).newBalance 1 = 0 := by
  have h := c2_chat_payment_required ⟨fun _ => 0, fun _ => none⟩ ⟨1, "alice"⟩
    ⟨"hola", none, 5⟩ (Except.ok ⟨"respuesta", "conv-1", [], 7⟩) (by decide)
  exact ⟨by decide, h.1, h.2.2.1, (congrFun h.2.2.2.1 1).trans rfl⟩

/-- C3 (counterexample): with conversation `"c1"` owned by user 2, caller
user 1's chat request to `"c1"` gets the 404, but the same caller's chat
request to the nonexistent id `"zzz"` is NOT answered with NotFound — the
ownership check is skipped (the owner lookup is falsy) and the
orchestrator runs, here successfully, so the two responses differ and the
claimed equality of responses fails. -/
theorem c3_chat_notfound_counterexample :
    (chat ⟨fun _ => 5, fun c => if c = "c1" then some 2 else none⟩ ⟨1, "alice"⟩
        ⟨"hola", some "c1", 5⟩ (Except.ok ⟨"respuesta", "c1", [], 10⟩)).outcome
      = ChatOutcome.err (conversationNotFound "c1") ∧
    (chat ⟨fun _ => 5, fun c => if c = "c1" then some 2 else none⟩ ⟨1, "alice"⟩
        ⟨"hola", some "zzz", 5⟩ (Except.ok ⟨"respuesta", "zzz-new", [], 10⟩)).outcome
      = ChatOutcome.ok ⟨"respuesta", "zzz-new", [], 10⟩ ∧
    (chat ⟨fun _ => 5, fun c => if c = "c1" then some 2 else none⟩ ⟨1, "alice"⟩
        ⟨"hola", some "zzz", 5⟩ (Except.ok ⟨"respuesta", "zzz-new", [], 10⟩)).outcome
      ≠ ChatOutcome.err (conversationNotFound "zzz") ∧
    (chat ⟨fun _ => 5, fun c => if c = "c1" then some 2 else none⟩ ⟨1, "alice"⟩
        ⟨"hola", some "zzz", 5⟩ (Except.ok ⟨"respuesta", "zzz-new", [], 10⟩)).orchCalled
      = true := by
  refine ⟨by decide, by decide, by decide, by decide⟩

/-- C3 (amended): a chat request carrying a conversation id owned by a
different user (with a truthy, i.e. nonzero, owner id) is answered with
the 404 `ConversationNotFound` body — byte-identical to the NotFound that
`get_conversation` produces for an id its owner-scoped lookup cannot see —
and the orchestrator is not invoked; but a chat request carrying a
nonexistent conversation id is not itself rejected (see the
counterexample: the ownership check is skipped and the orchestrator
runs). -/
theorem c3_chat_notfound_amended (env : ChatEnv) (token : TokenPayload)
    (request : ChatRequest) (orch : Except String ChatResult) (cid : String)
    (owner : Nat) (lookup : String → Nat → Option ConversationRec)
    (hbal : 0 < env.balance token.user_id)
    (hcid : request.conversation_id = some cid)
    (howner : env.convOwner cid = some owner)
    (hne0 : owner ≠ 0) (hne : owner ≠ token.user_id)
    (hlook : lookup cid token.user_id = none) :
    (chat env token request orch).outcome = ChatOutcome.err (conversationNotFound cid) ∧
    (chat env token request orch).orchCalled = false ∧
    (chat env token request orch).newBalance = env.balance ∧
    get_conversation lookup token cid = Except.error (conversationNotFound cid) := by
  have h1 : ¬ env.balance token.user_id ≤ 0 := not_le.mpr hbal
  have hg : ownGuard env token request = true := by
    simp [ownGuard, hcid, howner, hne0, hne]
  refine ⟨?_, ?_, ?_, ?_⟩
  · simp [chat, h1, hg, hcid]
  · simp [chat, h1, hg]
  · simp [chat, h1, hg]
  · simp [get_conversation, hlook]

/-- Witness for C3's amended claim: conversation `"c1"` is owned by user 2;
caller user 1 gets the 404 body from `chat`, identical to the one
`get_conversation` returns when its owner-scoped lookup sees nothing. -/
theorem c3_chat_notfound_amended_witness :
    (0 < ChatEnv.balance ⟨fun _ => 5, fun c => if c = "c1" then some 2 else none⟩ 1) ∧
    ChatEnv.convOwner ⟨fun _ => 5, fun c => if c = "c1" then some 2 else none⟩ "c1"
      = some 2 ∧
    (2 : Nat) ≠ 0 ∧ (2 : Nat) ≠ 1 ∧
    (chat ⟨fun _ => 5, fun c => if c = "c1" then some 2 else none⟩ ⟨1, "alice"⟩
        ⟨"hola", some "c1", 5⟩ (Except.ok ⟨"respuesta", "c1", [], 10⟩)).outcome
      = ChatOutcome.err (conversationNotFound "c1") ∧
    (chat ⟨fun _ => 5, fun c => if c = "c1" then some 2 else none⟩ ⟨1, "alice"⟩
        ⟨"hola", some "c1", 5⟩ (Except.ok ⟨"respuesta", "c1", [], 10⟩)).orchCalled
      = false ∧
    get_conversation (fun _ _ => none) ⟨1, "alice"⟩ "c1"
      = Except.error (conversationNotFound "c1") := by
  have h := c3_chat_notfound_amended
    ⟨fun _ => 5, fun c => if c = "c1" then some 2 else none⟩ ⟨1, "alice"⟩
    ⟨"hola", some "c1", 5⟩ (Except.ok ⟨"respuesta", "c1", [], 10⟩) "c1" 2
    (fun _ _ => none) (by decide) rfl (by decide) (by decide) (by decide) rfl
  exact ⟨by decide, by decide, by decide, by decide, h.1, h.2.1, h.2.2.2⟩

end Corolaria
